import Mathlib

/-!
Verification development for the next-day PV forecast pipeline
(`src/pv_forecast_app.py`): a shallow embedding of the weather fetcher,
the PV output engine, and the equipment-catalog helpers, together with
theorems settling the behavioural claims about them.

Modelling conventions:
* timestamps are `Int` minutes since the Unix epoch (UTC instants); the
  string parsing done by `pd.to_datetime` is assumed to succeed and is
  modelled as the identity on these instants;
* a timezone is its IANA name together with an offset function
  (minutes east of UTC at a given UTC instant), which is all the pandas
  operations used here (`tz_convert`, date formatting, daily resampling)
  observe;
* numeric values are `Rat` (the Python floats, with exact arithmetic);
* a Python exception that escapes a function is an `Except.error`;
  a handled error path that returns normally is `Except.ok`.
-/

namespace PVForecast

/-- A timezone: IANA name plus UTC-offset function (minutes east of UTC,
as a function of the UTC instant, so DST rules can be expressed). -/
structure Tz where
  name : String
  offsetAt : Int → Int

/-- Civil (local) calendar date of a UTC instant `t` (epoch minutes) in
timezone `z`, encoded as days since the epoch: pandas renders the date of a
tz-aware timestamp from the UTC instant shifted by the zone offset. -/
def localDate (z : Tz) (t : Int) : Int :=
  (t + z.offsetAt t).fdiv 1440

/-- Association-list lookup for DataFrame columns (first match wins, as in
pandas column selection by label). -/
def lookupCol (c : String) : List (String × List Rat) → Option (List Rat)
  | [] => none
  | (a, vs) :: ps => if a = c then some vs else lookupCol c ps

/-- Position of instant `t` in an index list (first occurrence). -/
def posOf (t : Int) : List Int → Option Nat
  | [] => none
  | x :: xs => if x = t then some 0 else (posOf t xs).map (· + 1)

/-- A pandas DataFrame as used by this program: a tz-aware `DatetimeIndex`
(the UTC instants plus the display timezone set by `tz_convert`) and named
value columns aligned with the index. -/
structure DataFrame where
  index : List Int
  cols : List (String × List Rat)
  tzi : Tz

/-- `pd.DataFrame()`: the empty frame returned on every handled error path. -/
def emptyDF : DataFrame :=
  { index := [], cols := [], tzi := { name := "UTC", offsetAt := fun _ => 0 } }

/-- `df.empty` as used on line 57 of the source (no rows). -/
def DataFrame.isEmpty (d : DataFrame) : Bool :=
  d.index.isEmpty

/-- The column names of a frame, in order (`df.columns`). -/
def DataFrame.colNames (d : DataFrame) : List String :=
  d.cols.map (fun c => c.1)

/-- The value of column `c` at index entry `t` (`df.loc[t, c]`). -/
def DataFrame.at? (d : DataFrame) (c : String) (t : Int) : Option Rat :=
  (lookupCol c d.cols).bind fun vs => (posOf t d.index).bind fun i => vs.get? i

/-- Association-list lookup for a rename mapping. -/
def lookupStr (n : String) : List (String × String) → Option String
  | [] => none
  | (a, b) :: ps => if a = n then some b else lookupStr n ps

/-- Apply a `rename(columns=...)` mapping to one column name: renamed if it
is a key of the mapping, kept otherwise. -/
def renameOne (m : List (String × String)) (n : String) : String :=
  ((lookupStr n m).getD n)

/-- `df.rename(columns=m)`: rename column labels, leaving data and index
untouched. -/
def DataFrame.renameCols (d : DataFrame) (m : List (String × String)) : DataFrame :=
  { index := d.index, cols := d.cols.map (fun c => (renameOne m c.1, c.2)), tzi := d.tzi }

/-- Values of a column kept by a row filter on the index. -/
def filterVals (idx : List Int) (p : Int → Bool) (vs : List Rat) : List Rat :=
  ((idx.zip vs).filter (fun q => p q.1)).map (fun q => q.2)

/-- Row selection by a predicate on the index (used to model the
partial-string date selection `df.loc[date]`). -/
def DataFrame.filterRows (d : DataFrame) (p : Int → Bool) : DataFrame :=
  { index := d.index.filter p,
    cols := d.cols.map (fun c => (c.1, filterVals d.index p c.2)),
    tzi := d.tzi }

/-- The `hourly` block of the provider's JSON payload: the `time` array and
the five requested variable arrays, each possibly absent. `none` everywhere
models the empty dict `{}` that `.get('hourly', {})` substitutes. Times are
kept as parsed UTC instants (the provider is queried with `timezone=UTC`). -/
structure HourlyBlock where
  time : Option (List Int)
  shortwave_radiation : Option (List Rat)
  direct_normal_irradiance : Option (List Rat)
  diffuse_radiation : Option (List Rat)
  temperature_2m : Option (List Rat)
  wind_speed_10m : Option (List Rat)

/-- The empty dict `{}` used as the default for a missing `hourly` key. -/
def HourlyBlock.emptyDict : HourlyBlock :=
  { time := none, shortwave_radiation := none, direct_normal_irradiance := none,
    diffuse_radiation := none, temperature_2m := none, wind_speed_10m := none }

/-- The present variable columns (everything except `time`), in the
provider's key order. -/
def HourlyBlock.varCols (h : HourlyBlock) : List (String × List Rat) :=
  ([("shortwave_radiation", h.shortwave_radiation),
    ("direct_normal_irradiance", h.direct_normal_irradiance),
    ("diffuse_radiation", h.diffuse_radiation),
    ("temperature_2m", h.temperature_2m),
    ("wind_speed_10m", h.wind_speed_10m)]).filterMap
      (fun p => p.2.map (fun vs => (p.1, vs)))

/-- `not data`: the dict is empty (falsy). -/
def HourlyBlock.isEmptyDict (h : HourlyBlock) : Bool :=
  h.time.isNone && h.varCols.isEmpty

/-- The body of a success-status HTTP response, as seen by `r.json()`. -/
inductive Body
  /-- The body is not valid JSON: `r.json()` raises `JSONDecodeError`. -/
  | notJson
  /-- The body is valid JSON but not an object: `.get` raises
  `AttributeError`. -/
  | jsonNonObject
  /-- A JSON object, with or without an `hourly` key. -/
  | jsonObject (hourly : Option HourlyBlock)

/-- Outcome of the `requests.get` call on lines 19-20. -/
inductive HttpOutcome
  /-- `requests.get` or `raise_for_status` raised a `RequestException`
  (network error, timeout, or non-success HTTP status). -/
  | requestException (msg : String)
  /-- A success-status response carrying `body`. -/
  | success (body : Body)

/-- What `fetch_forecast` hands back on a normal (non-raising) return: the
weather frame and the diagnostic shown via `st.error`, if any. -/
structure FetchResult where
  frame : DataFrame
  diag : Option String

/-- The `rename(columns=...)` mapping on lines 31-35 of the source. -/
def renameMapFetch : List (String × String) :=
  [("shortwave_radiation", "ghi"),
   ("direct_normal_irradiance", "dni"),
   ("diffuse_radiation", "dhi")]

/-- Shallow embedding of `fetch_forecast` (lines 10-42 of
`src/pv_forecast_app.py`). Inputs beyond the source's `(lat, lon, tz)`
arguments make the ambient state explicit: `now` is the UTC instant of the
call (`pd.Timestamp.now`), and `outcome` is the result of the HTTP exchange.
`lat` and `lon` only enter the request parameters and do not affect the
processing of the response. An `Except.error` is a Python exception escaping
the function; note that only lines 19-20 sit inside the first `try`, so
`r.json()` on line 24 raising is not caught. -/
def fetch_forecast (lat lon : Rat) (z : Tz) (now : Int) (outcome : HttpOutcome) :
    Except String FetchResult :=
  -- `lat`/`lon` appear only in the request params dict.
  let _ := (lat, lon)
  match outcome with
  | .requestException msg =>
      -- lines 21-23: `except requests.RequestException`
      .ok { frame := emptyDF, diag := some ("Failed to fetch weather data: " ++ msg) }
  | .success body =>
    match body with
    | .notJson =>
        -- line 24: `r.json()` raises outside any `try`
        .error "requests.exceptions.JSONDecodeError"
    | .jsonNonObject =>
        -- line 24: `.get` on a non-dict raises outside any `try`
        .error "AttributeError"
    | .jsonObject hourly =>
      let data := hourly.getD HourlyBlock.emptyDict
      -- line 25: `if not data or 'time' not in data`
      if data.isEmptyDict || data.time.isNone then
        .ok { frame := emptyDF, diag := some "No hourly data returned by weather API." }
      else
        match data.time with
        | none => .ok { frame := emptyDF, diag := some "No hourly data returned by weather API." }
        | some times =>
          -- line 28: `pd.DataFrame(data)` raises ValueError on ragged arrays
          if data.varCols.any (fun c => c.2.length ≠ times.length) then
            .error "ValueError"
          else
            -- lines 29-35: to_datetime (identity on instants), set_index,
            -- tz_convert, rename
            let df : DataFrame :=
              (DataFrame.renameCols { index := times, cols := data.varCols, tzi := z }
                renameMapFetch)
            -- line 36: tomorrow = date of now(tz) + 1 day, rendered in tz
            let tomorrow := localDate z (now + 1440)
            -- line 38: `df.loc[tomorrow]` selects the rows of that civil
            -- date; an empty selection raises KeyError, caught on line 39
            let filtered := df.filterRows (fun t => localDate z t == tomorrow)
            if filtered.index.isEmpty then
              .ok { frame := emptyDF,
                    diag := some ("No data available for tomorrow in timezone " ++ z.name ++ ".") }
            else
              .ok { frame := filtered, diag := none }

/-- A time series (a pandas `Series` with a tz-aware index): index entries
paired with values. -/
abbrev Series := List (Int × Rat)

/-- Module-level constant on line 53 of the source: `tz = "Europe/Berlin"`. -/
def tzConst : String := "Europe/Berlin"

/-- `pvlib.location.Location(lat, lon, tz)` as constructed on line 60. -/
structure Location where
  latitude : Rat
  longitude : Rat
  tzName : String

/-- The `Location(lat, lon, tz)` call on line 60: the timezone argument is
the module-level constant, not a parameter of `compute_pv_output`. -/
def mkLocation (lat lon : Rat) : Location :=
  { latitude := lat, longitude := lon, tzName := tzConst }

/-- `pvlib.pvsystem.PVSystem(...)` as constructed on lines 61-67; the module
and inverter parameter rows are identified by their catalog keys. -/
structure PVSystem where
  surface_tilt : Rat
  surface_azimuth : Rat
  module_key : String
  inverter_key : String

/-- The `rename(columns=...)` mapping on line 59 of the source, mapping the
provider names to pvlib's expected `temp_air` / `wind_speed`. -/
def renameMapMC : List (String × String) :=
  [("temperature_2m", "temp_air"), ("wind_speed_10m", "wind_speed")]

/-- Line 59: `mc_weather = weather.rename(columns={...})`. -/
def mc_weather (weather : DataFrame) : DataFrame :=
  weather.renameCols renameMapMC

/-- The delegated pvlib model chain at the boundary contracted by the spec:
`mc.run_model(mc_weather)` followed by reading `mc.results.ac` yields one AC
power value (watts, single unit) per index entry, as a function of the
location, the system, the weather frame, and the entry's instant. The
internals (solar position, transposition, single-diode, inverter curve) are
external to this repository. -/
structure PhysicsModel where
  acAt : Location → PVSystem → DataFrame → Int → Rat

/-- Line 75: scale single-unit AC watts by panel and inverter counts and
convert to kW. -/
def scaleKw (num_panels num_inverters : Nat) (v : Rat) : Rat :=
  v * (num_panels : Rat) * (num_inverters : Rat) / 1000

/-- Sum of the values of a series falling on civil date `d` of timezone `z`. -/
def daySum (z : Tz) (d : Int) (s : Series) : Rat :=
  ((s.filter (fun q => localDate z q.1 == d)).map (fun q => q.2)).sum

/-- `s.resample('D').sum()` on a tz-aware hourly index: daily bins at local
midnights from the first to the last civil date present, each labelled by
its date and holding the sum of the values falling in it. -/
def resampleDaySum (z : Tz) (s : Series) : Series :=
  match s with
  | [] => []
  | q :: qs =>
    let d0 := localDate z q.1
    let lo := qs.foldl (fun a r => min a (localDate z r.1)) d0
    let hi := qs.foldl (fun a r => max a (localDate z r.1)) d0
    (List.range ((hi - lo + 1).toNat)).map
      (fun i => ((lo + (i : Int)), daySum z (lo + (i : Int)) (q :: qs)))

/-- Shallow embedding of `compute_pv_output` (lines 56-78 of
`src/pv_forecast_app.py`), parameterized by the delegated pvlib model chain
`pm`. Returns `(ac_total_kw, hourly_kwh, daily_kwh)`. -/
def compute_pv_output (pm : PhysicsModel) (weather : DataFrame)
    (lat lon tilt azimuth : Rat) (module_key inverter_key : String)
    (num_panels num_inverters : Nat) : Series × Series × Series :=
  -- lines 57-58: empty weather short-circuits to three empty series
  if weather.isEmpty then ([], [], [])
  else
    let mcw := mc_weather weather
    let location := mkLocation lat lon
    let system : PVSystem :=
      { surface_tilt := tilt, surface_azimuth := azimuth,
        module_key := module_key, inverter_key := inverter_key }
    -- lines 68-73: run the model chain; `ac` is indexed like the weather
    let ac : Series := mcw.index.map (fun t => (t, pm.acAt location system mcw t))
    -- line 75
    let ac_total_kw := ac.map (fun q => (q.1, scaleKw num_panels num_inverters q.2))
    -- line 76
    let hourly_kwh := ac_total_kw
    -- line 77: resample by civil day of the index's timezone
    let daily_kwh := resampleDaySum weather.tzi hourly_kwh
    (ac_total_kw, hourly_kwh, daily_kwh)

/-- The sub-models the spec delegates (§4.3 steps 1-4, §9 "Delegated physics
model"): transposition factors for the three irradiance components (already
composed with the sun position for the instant), the cell-temperature model,
the single-diode maximum-power solve, and the inverter efficiency/clipping
curve (which may be negative below the manufacturer threshold). -/
structure DelegatedModels where
  beamFactor : Location → PVSystem → Int → Rat
  skyFactor : Location → PVSystem → Int → Rat
  groundFactor : Location → PVSystem → Int → Rat
  cellTemp : Rat → Rat → Rat → Rat
  diodeMpp : String → Rat → Rat → Rat
  inverterAc : String → Rat → Rat

/-- Modelled from the spec: the per-hour AC power of the delegated pvlib
model chain, which is not part of this repository's source. Follows §4.3 of
the spec literally: negative irradiance components are clamped to zero
before use; plane-of-array irradiance is the transposition of the three
components (a linear combination with geometry/sun-position factors); the
single-diode step short-circuits to zero power when the incident irradiance
is zero (nighttime); otherwise the DC operating point is mapped through the
inverter curve and negative output is clamped to zero. -/
def specAcAt (dm : DelegatedModels) (loc : Location) (sys : PVSystem)
    (w : DataFrame) (t : Int) : Rat :=
  let ghi := max 0 ((w.at? "ghi" t).getD 0)
  let dni := max 0 ((w.at? "dni" t).getD 0)
  let dhi := max 0 ((w.at? "dhi" t).getD 0)
  let poa := dni * dm.beamFactor loc sys t + dhi * dm.skyFactor loc sys t
      + ghi * dm.groundFactor loc sys t
  if poa = 0 then 0
  else
    let tcell := dm.cellTemp poa ((w.at? "temp_air" t).getD 0) ((w.at? "wind_speed" t).getD 0)
    max 0 (dm.inverterAc sys.inverter_key (dm.diodeMpp sys.module_key poa tcell))

/-- The spec-contracted physics model induced by a choice of delegated
sub-models. -/
def specPhysics (dm : DelegatedModels) : PhysicsModel :=
  { acAt := specAcAt dm }

/-- First index of an element in a list, if present. -/
def idxOf (p : String) : List String → Option Nat
  | [] => none
  | x :: xs => if x = p then some 0 else (idxOf p xs).map (· + 1)

/-- Modelled from the spec: `default_selection(ids, preferred_id)` of §4.2
is not present in `src/pv_forecast_app.py` (the source draft indexes the
catalog only through UI-constructed labels); per the spec's words it
"returns the index of `preferred_id` if present, else index 0", and is a
total function, so it cannot fail on an empty catalog or an absent id. -/
def default_selection (ids : List String) (preferred_id : String) : Nat :=
  (idxOf preferred_id ids).getD 0

/-! ### Helper lemmas -/

lemma mem_of_lookupStr {n b : String} :
    ∀ {m : List (String × String)}, lookupStr n m = some b → (n, b) ∈ m := by
  intro m
  induction m with
  | nil => intro h; simp [lookupStr] at h
  | cons q qs ih =>
    obtain ⟨a, b'⟩ := q
    intro h
    by_cases hq : a = n
    · simp only [lookupStr, if_pos hq] at h
      have hq' : (a, b') = (n, b) := by
        cases h
        rw [hq]
      rw [hq']
      exact List.mem_cons_self (n, b) qs
    · simp only [lookupStr, if_neg hq] at h
      exact List.mem_cons_of_mem (a, b') (ih h)

lemma renameOne_eq_iff (m : List (String × String)) (c n : String)
    (hsrc : lookupStr c m = none) (htgt : ∀ q ∈ m, q.2 ≠ c) :
    renameOne m n = c ↔ n = c := by
  constructor
  · intro h
    unfold renameOne at h
    cases hl : lookupStr n m with
    | none => rw [hl] at h; simpa using h
    | some b =>
      rw [hl] at h
      simp only [Option.getD_some] at h
      exact absurd h (htgt _ (mem_of_lookupStr hl))
  · intro h
    subst h
    unfold renameOne
    rw [hsrc]
    rfl

lemma lookupCol_rename (m : List (String × String)) (c : String)
    (hsrc : lookupStr c m = none) (htgt : ∀ q ∈ m, q.2 ≠ c) :
    ∀ cols, lookupCol c (cols.map (fun q => (renameOne m q.1, q.2))) = lookupCol c cols := by
  intro cols
  induction cols with
  | nil => rfl
  | cons p ps ih =>
    obtain ⟨a, vs⟩ := p
    rw [List.map_cons]
    by_cases hc : a = c
    · have hr : renameOne m a = c := (renameOne_eq_iff m c a hsrc htgt).mpr hc
      simp only [lookupCol]
      rw [if_pos hr, if_pos hc]
    · have hr : ¬ renameOne m a = c :=
        fun h => hc ((renameOne_eq_iff m c a hsrc htgt).mp h)
      simp only [lookupCol]
      rw [if_neg hr, if_neg hc]
      exact ih

lemma at?_renameCols (d : DataFrame) (m : List (String × String)) (c : String) (t : Int)
    (hsrc : lookupStr c m = none) (htgt : ∀ q ∈ m, q.2 ≠ c) :
    (d.renameCols m).at? c t = d.at? c t := by
  unfold DataFrame.at? DataFrame.renameCols
  simp only [lookupCol_rename m c hsrc htgt]

lemma at?_mc_weather (w : DataFrame) (c : String) (t : Int)
    (hsrc : lookupStr c renameMapMC = none) (htgt : ∀ q ∈ renameMapMC, q.2 ≠ c) :
    (mc_weather w).at? c t = w.at? c t :=
  at?_renameCols w renameMapMC c t hsrc htgt

lemma specAcAt_nonneg (dm : DelegatedModels) (loc : Location) (sys : PVSystem)
    (w : DataFrame) (t : Int) : 0 ≤ specAcAt dm loc sys w t := by
  unfold specAcAt
  dsimp only
  split
  · exact le_refl 0
  · exact le_max_left 0 _

lemma scaleKw_nonneg (np ni : Nat) (v : Rat) (hv : 0 ≤ v) : 0 ≤ scaleKw np ni v := by
  unfold scaleKw
  have h1 : (0 : Rat) ≤ (np : Rat) := Nat.cast_nonneg np
  have h2 : (0 : Rat) ≤ (ni : Rat) := Nat.cast_nonneg ni
  have h3 : (0 : Rat) ≤ v * (np : Rat) * (ni : Rat) := mul_nonneg (mul_nonneg hv h1) h2
  have h4 : (0 : Rat) ≤ (1000 : Rat) := by norm_num
  exact div_nonneg h3 h4

lemma scaleKw_zero (np ni : Nat) : scaleKw np ni 0 = 0 := by
  unfold scaleKw
  ring

/-- The first component of `compute_pv_output`, written out: empty weather
yields the empty series, otherwise the model-chain AC series scaled per
line 75. -/
lemma compute_fst (pm : PhysicsModel) (w : DataFrame) (lat lon tilt az : Rat)
    (mk ik : String) (np ni : Nat) :
    (compute_pv_output pm w lat lon tilt az mk ik np ni).1
      = if w.isEmpty then ([] : Series)
        else ((mc_weather w).index.map
            (fun t => (t, pm.acAt (mkLocation lat lon)
              { surface_tilt := tilt, surface_azimuth := az,
                module_key := mk, inverter_key := ik } (mc_weather w) t))).map
          (fun q => (q.1, scaleKw np ni q.2)) := by
  unfold compute_pv_output
  split
  · rfl
  · rfl

/-! ### C1: error policy of the weather fetcher -/

/-- C1: the claim fails on the code. Lines 19-20 are the only statements
inside the `try` block, so when the HTTP exchange succeeds but the body is
not valid JSON, `r.json()` on line 24 raises a `JSONDecodeError` that
propagates to the caller for every latitude, longitude, timezone and call
instant — contradicting "in no such case does it raise an exception that
propagates to the caller". -/
theorem fetch_forecast_json_error_escapes (lat lon : Rat) (z : Tz) (now : Int) :
    fetch_forecast lat lon z now (.success .notJson)
      = .error "requests.exceptions.JSONDecodeError" := rfl

/-! ### C3: empty weather short-circuits the PV output engine -/

/-- C3: for every model chain, plant configuration and catalog keys, an
empty WeatherFrame makes `compute_pv_output` return three empty series
immediately; the result does not depend on the model chain `pm`, so no
model computation is performed, and the function is total. -/
theorem compute_pv_output_empty (pm : PhysicsModel) (w : DataFrame)
    (lat lon tilt az : Rat) (mk ik : String) (np ni : Nat)
    (h : w.isEmpty = true) :
    compute_pv_output pm w lat lon tilt az mk ik np ni = ([], [], []) := by
  unfold compute_pv_output
  rw [if_pos h]

/-- Concrete instance of `compute_pv_output_empty` at the empty frame. -/
theorem compute_pv_output_empty_witness :
    compute_pv_output { acAt := fun _ _ _ _ => 3 } emptyDF 51 13 30 180 "m" "i" 2 2
      = ([], [], []) :=
  compute_pv_output_empty { acAt := fun _ _ _ _ => 3 } emptyDF 51 13 30 180 "m" "i" 2 2 rfl

/-! ### C5: linearity in plant scale -/

/-- C5: every hourly `ac_power_kw` value is linear in
`panel_count × inverter_count`: doubling the panel count doubles every
hourly value, with 10 panels every hourly value is exactly 10 times its
value with 1 panel, and in general the series with `np` panels and `ni`
inverters is the single-unit series scaled by `np * ni`. -/
theorem compute_pv_output_scale_linear (pm : PhysicsModel) (w : DataFrame)
    (lat lon tilt az : Rat) (mk ik : String) (np ni : Nat) :
    (compute_pv_output pm w lat lon tilt az mk ik (2 * np) ni).1
        = ((compute_pv_output pm w lat lon tilt az mk ik np ni).1).map
            (fun q => (q.1, 2 * q.2))
    ∧ (compute_pv_output pm w lat lon tilt az mk ik 10 ni).1
        = ((compute_pv_output pm w lat lon tilt az mk ik 1 ni).1).map
            (fun q => (q.1, 10 * q.2))
    ∧ (compute_pv_output pm w lat lon tilt az mk ik np ni).1
        = ((compute_pv_output pm w lat lon tilt az mk ik 1 1).1).map
            (fun q => (q.1, ((np * ni : Nat) : Rat) * q.2)) := by
  refine ⟨?_, ?_, ?_⟩ <;>
    · rw [compute_fst, compute_fst]
      by_cases h : w.isEmpty
      · simp [h]
      · rw [if_neg h, if_neg h]
        simp only [List.map_map]
        refine List.map_congr_left (fun t _ => ?_)
        simp only [Function.comp_apply, Prod.mk.injEq, true_and]
        unfold scaleKw
        push_cast
        ring

/-! ### C7: equipment selection fallback -/

lemma idxOf_not_mem {p : String} :
    ∀ {ids : List String}, p ∉ ids → idxOf p ids = none := by
  intro ids
  induction ids with
  | nil => intro _; rfl
  | cons x xs ih =>
    intro h
    have hx : ¬ x = p := by
      intro hx
      exact h (by rw [← hx]; exact List.mem_cons_self x xs)
    have hxs : p ∉ xs := fun hm => h (List.mem_cons_of_mem x hm)
    simp [idxOf, hx, ih hxs]

lemma idxOf_some_of_mem {p : String} :
    ∀ {ids : List String}, p ∈ ids → ∃ i, idxOf p ids = some i := by
  intro ids
  induction ids with
  | nil => intro h; simp at h
  | cons x xs ih =>
    intro h
    by_cases hx : x = p
    · exact ⟨0, by simp [idxOf, hx]⟩
    · have hm : p ∈ xs := by
        rcases List.mem_cons.mp h with h1 | h2
        · exact absurd h1.symm hx
        · exact h2
      obtain ⟨i, hi⟩ := ih hm
      exact ⟨i + 1, by simp [idxOf, hx, hi]⟩

lemma idxOf_get {p : String} :
    ∀ {ids : List String} {i : Nat}, idxOf p ids = some i → ids.get? i = some p := by
  intro ids
  induction ids with
  | nil => intro i h; simp [idxOf] at h
  | cons x xs ih =>
    intro i h
    by_cases hx : x = p
    · simp only [idxOf, if_pos hx] at h
      cases h
      simp [hx]
    · simp only [idxOf, if_neg hx] at h
      obtain ⟨j, hj, hji⟩ := Option.map_eq_some'.mp h
      rw [← hji]
      simpa using ih hj

/-- C7: `default_selection` is a total function (so it cannot raise, even on
an empty catalog): it returns an index holding the preferred id when that id
is present; when the preferred id is absent it returns index 0, which on any
non-empty catalog selects the first available entry. -/
theorem default_selection_spec (ids : List String) (p : String) :
    (p ∈ ids → ids.get? (default_selection ids p) = some p)
    ∧ (p ∉ ids → default_selection ids p = 0)
    ∧ (p ∉ ids → ∀ x xs, ids = x :: xs → ids.get? (default_selection ids p) = some x) := by
  refine ⟨?_, ?_, ?_⟩
  · intro hm
    obtain ⟨i, hi⟩ := idxOf_some_of_mem hm
    unfold default_selection
    rw [hi]
    exact idxOf_get hi
  · intro hnm
    unfold default_selection
    rw [idxOf_not_mem hnm]
    rfl
  · intro hnm x xs heq
    unfold default_selection
    rw [idxOf_not_mem hnm]
    subst heq
    rfl

/-- Concrete instances of `default_selection_spec`: a present preferred id
is selected; an absent preferred id falls back to the first entry. -/
theorem default_selection_spec_witness :
    (["modA", "modB"].get? (default_selection ["modA", "modB"] "modB") = some "modB")
    ∧ (["modA", "modB"].get? (default_selection ["modA", "modB"] "stale") = some "modA") :=
  ⟨(default_selection_spec ["modA", "modB"] "modB").1 (by simp),
   (default_selection_spec ["modA", "modB"] "stale").2.2 (by simp) "modA" ["modB"] rfl⟩

/-! ### C10: the fixed "Europe/Berlin" solar-position timezone -/

/-- C10: `compute_pv_output` builds its solar-position `Location` from the
module-level constant `tz = "Europe/Berlin"` (line 53): the constructed
location's timezone is "Europe/Berlin" for every latitude and longitude, and
two model chains that agree on all locations with timezone "Europe/Berlin"
produce identical results for all arguments — so no argument of
`compute_pv_output` can select a different timezone. -/
theorem compute_pv_output_fixed_timezone (pm₁ pm₂ : PhysicsModel)
    (hag : ∀ loc sys w t, loc.tzName = "Europe/Berlin" →
      pm₁.acAt loc sys w t = pm₂.acAt loc sys w t)
    (w : DataFrame) (lat lon tilt az : Rat) (mk ik : String) (np ni : Nat) :
    (mkLocation lat lon).tzName = "Europe/Berlin"
    ∧ compute_pv_output pm₁ w lat lon tilt az mk ik np ni
        = compute_pv_output pm₂ w lat lon tilt az mk ik np ni := by
  refine ⟨rfl, ?_⟩
  unfold compute_pv_output
  by_cases h : w.isEmpty
  · rw [if_pos h, if_pos h]
  · rw [if_neg h, if_neg h]
    have hmap : ((mc_weather w).index.map
          (fun t => (t, pm₁.acAt (mkLocation lat lon)
            { surface_tilt := tilt, surface_azimuth := az,
              module_key := mk, inverter_key := ik } (mc_weather w) t)))
        = ((mc_weather w).index.map
          (fun t => (t, pm₂.acAt (mkLocation lat lon)
            { surface_tilt := tilt, surface_azimuth := az,
              module_key := mk, inverter_key := ik } (mc_weather w) t))) :=
      List.map_congr_left (fun t _ => by rw [hag _ _ _ _ rfl])
    exact congrArg (fun ac : Series =>
      (ac.map (fun q => (q.1, scaleKw np ni q.2)),
       ac.map (fun q => (q.1, scaleKw np ni q.2)),
       resampleDaySum w.tzi (ac.map (fun q => (q.1, scaleKw np ni q.2))))) hmap

/-- The witness timezone: Europe/Berlin at a constant +60 min offset. -/
def zW : Tz := { name := "Europe/Berlin", offsetAt := fun _ => 60 }

/-- A small concrete weather frame (one record at instant 0). -/
def wN : DataFrame :=
  { index := [0],
    cols := [("ghi", [0]), ("dni", [0]), ("dhi", [0]),
             ("temperature_2m", [10]), ("wind_speed_10m", [3])],
    tzi := zW }

/-- A model chain that reads the location's timezone. -/
def pmBW : PhysicsModel :=
  { acAt := fun loc _ _ _ => if loc.tzName = "Europe/Berlin" then 5 else 7 }

/-- A constant model chain agreeing with `pmBW` on Berlin locations. -/
def pmCW : PhysicsModel :=
  { acAt := fun _ _ _ _ => 5 }

/-- Concrete instance of `compute_pv_output_fixed_timezone`. -/
theorem compute_pv_output_fixed_timezone_witness :
    (mkLocation 51 13).tzName = "Europe/Berlin"
    ∧ compute_pv_output pmBW wN 51 13 30 180 "m" "i" 1 1
        = compute_pv_output pmCW wN 51 13 30 180 "m" "i" 1 1 :=
  compute_pv_output_fixed_timezone pmBW pmCW
    (fun loc _ _ _ h => by simp [pmBW, pmCW, h]) wN 51 13 30 180 "m" "i" 1 1

/-! ### C8: negative irradiance is not clamped -/

/-- A provider payload whose single tomorrow-row carries a negative GHI. -/
def hbNeg : HourlyBlock :=
  { time := some [1440],
    shortwave_radiation := some [-5],
    direct_normal_irradiance := some [0],
    diffuse_radiation := some [0],
    temperature_2m := some [10],
    wind_speed_10m := some [3] }

/-- C8: the claim fails on the code. Neither `fetch_forecast` nor
`compute_pv_output` clamps negative irradiance: a provider row with
`shortwave_radiation = -5` reaches the frame returned by `fetch_forecast`
and the frame handed to `mc.run_model` (after the line-59 rename) with
`ghi = -5 < 0` intact. -/
theorem negative_irradiance_reaches_model :
    (fetch_forecast 51 13 zW 0 (.success (.jsonObject (some hbNeg)))).map
        (fun r => (r.frame.at? "ghi" 1440, (mc_weather r.frame).at? "ghi" 1440))
      = .ok (some (-5), some (-5))
    ∧ (-5 : Rat) < 0 := by
  constructor
  · rfl
  · norm_num

/-! ### C2: every returned row lies on tomorrow's civil date -/

/-- C2: whenever `fetch_forecast` returns (rather than raising), every
timestamp of the returned frame has civil date in the target timezone equal
to tomorrow — the civil date, in that timezone, of the call instant plus one
day — and an empty returned frame always comes with a reported diagnostic;
no returned frame contains a row of a different civil date. -/
theorem fetch_forecast_rows_tomorrow (lat lon : Rat) (z : Tz) (now : Int)
    (oc : HttpOutcome) (res : FetchResult)
    (h : fetch_forecast lat lon z now oc = .ok res) :
    (∀ t ∈ res.frame.index, localDate z t = localDate z (now + 1440))
    ∧ (res.frame.isEmpty = true → res.diag.isSome = true) := by
  cases oc with
  | requestException msg =>
    simp only [fetch_forecast] at h
    injection h with h
    subst h
    exact ⟨fun t ht => by simp [emptyDF] at ht, fun _ => rfl⟩
  | success body =>
    cases body with
    | notJson => simp only [fetch_forecast] at h; exact Except.noConfusion h
    | jsonNonObject => simp only [fetch_forecast] at h; exact Except.noConfusion h
    | jsonObject hourly =>
      simp only [fetch_forecast] at h
      split at h
      · injection h with h
        subst h
        exact ⟨fun t ht => by simp [emptyDF] at ht, fun _ => rfl⟩
      · split at h
        · injection h with h
          subst h
          exact ⟨fun t ht => by simp [emptyDF] at ht, fun _ => rfl⟩
        · split at h
          · exact Except.noConfusion h
          · split at h
            · injection h with h
              subst h
              exact ⟨fun t ht => by simp [emptyDF] at ht, fun _ => rfl⟩
            · rename_i times hlen hne
              injection h with h
              subst h
              constructor
              · intro t ht
                have hm := List.mem_filter.mp ht
                simpa using hm.2
              · intro h'
                exact absurd h' hne

/-- A provider payload spanning two civil days (instants 1440 and 2880 UTC;
with `zW` and a call at instant 0, only 1440 lies on tomorrow). -/
def hbW : HourlyBlock :=
  { time := some [1440, 2880],
    shortwave_radiation := some [100, 7],
    direct_normal_irradiance := some [200, 8],
    diffuse_radiation := some [50, 9],
    temperature_2m := some [10, 11],
    wind_speed_10m := some [3, 4] }

/-- The frame `fetch_forecast` produces from `hbW`: only tomorrow's row. -/
def frameW : DataFrame :=
  { index := [1440],
    cols := [("ghi", [100]), ("dni", [200]), ("dhi", [50]),
             ("temperature_2m", [10]), ("wind_speed_10m", [3])],
    tzi := zW }

/-- Concrete instance of `fetch_forecast_rows_tomorrow`: the two-day payload
`hbW` is filtered down to the single tomorrow row. -/
theorem fetch_forecast_rows_tomorrow_witness :
    (∀ t ∈ frameW.index, localDate zW t = localDate zW (0 + 1440))
    ∧ (frameW.isEmpty = true → (none : Option String).isSome = true) :=
  fetch_forecast_rows_tomorrow 51 13 zW 0 (.success (.jsonObject (some hbW)))
    { frame := frameW, diag := none } rfl

/-! ### C9: column names of the returned frame -/

/-- C9 fails on the code: `fetch_forecast` applied to a complete provider
payload returns a non-empty frame whose columns are
`ghi, dni, dhi, temperature_2m, wind_speed_10m` — the provider names for
temperature and wind are kept, and no `air_temperature` column exists. -/
theorem fetch_forecast_air_temperature_absent :
    (fetch_forecast 51 13 zW 0 (.success (.jsonObject (some hbW)))).map
        (fun r => (r.frame.isEmpty, r.frame.colNames.contains "air_temperature",
          r.frame.colNames))
      = .ok (false, false, ["ghi", "dni", "dhi", "temperature_2m", "wind_speed_10m"]) := rfl

/-- C9 amended: every non-empty WeatherFrame returned by `fetch_forecast`
carries the canonical irradiance names `ghi`, `dni`, `dhi` but retains the
provider names `temperature_2m` and `wind_speed_10m`; those two are renamed
by `compute_pv_output` (line 59) to pvlib's `temp_air` and `wind_speed` —
not to `air_temperature` — before the model runs. -/
theorem fetch_forecast_column_names (lat lon : Rat) (z : Tz) (now : Int)
    (ts : List Int) (sw dn dh tm ws : List Rat) (res : FetchResult)
    (h : fetch_forecast lat lon z now (.success (.jsonObject (some
        { time := some ts, shortwave_radiation := some sw,
          direct_normal_irradiance := some dn, diffuse_radiation := some dh,
          temperature_2m := some tm, wind_speed_10m := some ws }))) = .ok res)
    (hne : res.frame.isEmpty = false) :
    res.frame.colNames = ["ghi", "dni", "dhi", "temperature_2m", "wind_speed_10m"]
    ∧ (mc_weather res.frame).colNames
        = ["ghi", "dni", "dhi", "temp_air", "wind_speed"] := by
  simp only [fetch_forecast, Option.getD_some, HourlyBlock.isEmptyDict,
    HourlyBlock.varCols, Option.isNone_some, Bool.and_false, Bool.false_and,
    Bool.or_self, Bool.false_eq_true, if_false] at h
  split at h
  · exact Except.noConfusion h
  · split at h
    · injection h with h
      subst h
      simp [emptyDF, DataFrame.isEmpty] at hne
    · injection h with h
      subst h
      constructor
      · simp [DataFrame.colNames, DataFrame.filterRows, DataFrame.renameCols,
          HourlyBlock.varCols, renameOne, lookupStr, renameMapFetch]
      · simp [mc_weather, DataFrame.colNames, DataFrame.filterRows,
          DataFrame.renameCols, HourlyBlock.varCols, renameOne, lookupStr,
          renameMapFetch, renameMapMC]

/-- Concrete instance of `fetch_forecast_column_names` at the payload `hbW`. -/
theorem fetch_forecast_column_names_witness :
    frameW.colNames = ["ghi", "dni", "dhi", "temperature_2m", "wind_speed_10m"]
    ∧ (mc_weather frameW).colNames = ["ghi", "dni", "dhi", "temp_air", "wind_speed"] :=
  fetch_forecast_column_names 51 13 zW 0 [1440, 2880] [100, 7] [200, 8] [50, 9]
    [10, 11] [3, 4] { frame := frameW, diag := none } rfl rfl

/-! ### C4: nighttime zero and non-negativity (spec-modelled physics) -/

/-- An entry of the AC power series is the scaled model-chain value at its
instant, and its instant is in the weather index. -/
lemma compute_fst_mem (pm : PhysicsModel) (w : DataFrame) (lat lon tilt az : Rat)
    (mk ik : String) (np ni : Nat) (t : Int) (v : Rat)
    (hmem : (t, v) ∈ (compute_pv_output pm w lat lon tilt az mk ik np ni).1) :
    t ∈ (mc_weather w).index
    ∧ v = scaleKw np ni (pm.acAt (mkLocation lat lon)
        { surface_tilt := tilt, surface_azimuth := az,
          module_key := mk, inverter_key := ik } (mc_weather w) t) := by
  rw [compute_fst] at hmem
  by_cases h : w.isEmpty = true
  · rw [if_pos h] at hmem
    simp at hmem
  · rw [if_neg h] at hmem
    simp only [List.map_map] at hmem
    obtain ⟨t', ht', he⟩ := List.mem_map.mp hmem
    simp only [Function.comp_apply] at he
    injection he with h1 h2
    subst h1
    subst h2
    exact ⟨ht', rfl⟩

/-- C4, settled against the spec-modelled physics: every hourly `ac_power_kw`
value produced by `compute_pv_output` is non-negative (negative inverter
output is clamped to zero), and at an hour whose record has
`ghi = dni = dhi = 0` the value is exactly 0. -/
theorem compute_pv_output_night_zero_nonneg (dm : DelegatedModels) (w : DataFrame)
    (lat lon tilt az : Rat) (mk ik : String) (np ni : Nat) (t : Int) (v : Rat)
    (hmem : (t, v) ∈ (compute_pv_output (specPhysics dm) w lat lon tilt az mk ik np ni).1) :
    0 ≤ v
    ∧ (w.at? "ghi" t = some 0 → w.at? "dni" t = some 0 → w.at? "dhi" t = some 0 →
        v = 0) := by
  obtain ⟨ht, hv⟩ := compute_fst_mem (specPhysics dm) w lat lon tilt az mk ik np ni t v hmem
  constructor
  · rw [hv]
    exact scaleKw_nonneg np ni _ (specAcAt_nonneg dm (mkLocation lat lon) _ (mc_weather w) t)
  · intro hg hd hh
    have hg' : (mc_weather w).at? "ghi" t = some 0 := by
      rw [at?_mc_weather w "ghi" t (by decide) (by decide)]
      exact hg
    have hd' : (mc_weather w).at? "dni" t = some 0 := by
      rw [at?_mc_weather w "dni" t (by decide) (by decide)]
      exact hd
    have hh' : (mc_weather w).at? "dhi" t = some 0 := by
      rw [at?_mc_weather w "dhi" t (by decide) (by decide)]
      exact hh
    rw [hv]
    show scaleKw np ni (specAcAt dm (mkLocation lat lon)
      { surface_tilt := tilt, surface_azimuth := az,
        module_key := mk, inverter_key := ik } (mc_weather w) t) = 0
    unfold specAcAt
    rw [hg', hd', hh']
    simp [scaleKw]

/-- Delegated sub-models for the C4 witness (an inverter with a tare loss,
so clamping is exercised). -/
def dmW : DelegatedModels :=
  { beamFactor := fun _ _ _ => 1, skyFactor := fun _ _ _ => 1,
    groundFactor := fun _ _ _ => 1, cellTemp := fun _ _ _ => 25,
    diodeMpp := fun _ poa _ => poa, inverterAc := fun _ p => p - 1 }

/-- Concrete instance of `compute_pv_output_night_zero_nonneg` at the
all-zero-irradiance frame `wN`. -/
theorem compute_pv_output_night_zero_nonneg_witness :
    0 ≤ (0 : Rat)
    ∧ (wN.at? "ghi" 0 = some 0 → wN.at? "dni" 0 = some 0 → wN.at? "dhi" 0 = some 0 →
        (0 : Rat) = 0) :=
  compute_pv_output_night_zero_nonneg dmW wN 51 13 30 180 "m" "i" 1 1 0 0 (by
    have h1 : (compute_pv_output (specPhysics dmW) wN 51 13 30 180 "m" "i" 1 1).1
        = [((0 : Int), scaleKw 1 1 (specAcAt dmW (mkLocation 51 13)
            { surface_tilt := 30, surface_azimuth := 180,
              module_key := "m", inverter_key := "i" } (mc_weather wN) 0))] := rfl
    have h2 : specAcAt dmW (mkLocation 51 13)
        { surface_tilt := 30, surface_azimuth := 180,
          module_key := "m", inverter_key := "i" } (mc_weather wN) 0 = 0 := by
      have hg : (mc_weather wN).at? "ghi" 0 = some 0 := rfl
      have hd : (mc_weather wN).at? "dni" 0 = some 0 := rfl
      have hh : (mc_weather wN).at? "dhi" 0 = some 0 := rfl
      unfold specAcAt
      rw [hg, hd, hh]
      simp [dmW]
    rw [h1, h2, scaleKw_zero]
    exact List.mem_singleton.mpr rfl)

/-! ### C6: energy aggregation -/

/-- Every daily bin produced by `resampleDaySum` holds the sum of the series
values falling on that bin's civil date. -/
lemma resampleDaySum_mem (z : Tz) (s : Series) (d : Int) (v : Rat)
    (h : (d, v) ∈ resampleDaySum z s) : v = daySum z d s := by
  cases s with
  | nil => simp [resampleDaySum] at h
  | cons q qs =>
    simp only [resampleDaySum] at h
    obtain ⟨i, _, he⟩ := List.mem_map.mp h
    injection he with h1 h2
    subst h1
    subst h2
    rfl

/-- C6: for a non-empty WeatherFrame (indeed for any input),
`hourly_energy_kwh` is the very same series as `ac_power_kw`, and every
entry of `daily_energy_kwh` equals the exact sum of the `hourly_energy_kwh`
values of that civil day — exact rational equality, hence within any
floating-point tolerance. -/
theorem compute_pv_output_energy_agg (pm : PhysicsModel) (w : DataFrame)
    (lat lon tilt az : Rat) (mk ik : String) (np ni : Nat)
    (acS hS dS : Series)
    (heq : compute_pv_output pm w lat lon tilt az mk ik np ni = (acS, hS, dS)) :
    hS = acS ∧ ∀ d v, (d, v) ∈ dS → v = daySum w.tzi d hS := by
  unfold compute_pv_output at heq
  by_cases h : w.isEmpty = true
  · rw [if_pos h] at heq
    injection heq with h1 h23
    injection h23 with h2 h3
    subst h1
    subst h2
    subst h3
    exact ⟨rfl, fun d v hm => absurd hm (List.not_mem_nil _)⟩
  · rw [if_neg h] at heq
    injection heq with h1 h23
    injection h23 with h2 h3
    subst h1
    subst h2
    subst h3
    exact ⟨rfl, fun d v hm => resampleDaySum_mem w.tzi _ d v hm⟩

/-- Concrete instance of `compute_pv_output_energy_agg`: one tomorrow row,
2 panels and 3 inverters, unit AC power 5 W, so 0.03 kW and a single daily
bin holding 0.03 kWh. -/
theorem compute_pv_output_energy_agg_witness :
    ([((1440 : Int), (3 : Rat)/100)] = [((1440 : Int), (3 : Rat)/100)])
    ∧ ∀ d v, (d, v) ∈ [((1 : Int), (3 : Rat)/100)] →
        v = daySum frameW.tzi d [((1440 : Int), (3 : Rat)/100)] :=
  compute_pv_output_energy_agg pmCW frameW 51 13 30 180 "m" "i" 2 3
    [(1440, 3/100)] [(1440, 3/100)] [(1, 3/100)] (by
      have hA : compute_pv_output pmCW frameW 51 13 30 180 "m" "i" 2 3
          = ([((1440 : Int), scaleKw 2 3 5)], [((1440 : Int), scaleKw 2 3 5)],
             [((1 : Int), daySum frameW.tzi 1 [((1440 : Int), scaleKw 2 3 5)])]) := rfl
      have hs : scaleKw 2 3 5 = 3 / 100 := by
        unfold scaleKw
        norm_num
      have hld : localDate frameW.tzi 1440 = 1 := by decide
      have hd : daySum frameW.tzi 1 [((1440 : Int), (3 : Rat) / 100)] = 3 / 100 := by
        unfold daySum
        simp [hld]
      rw [hA, hs, hd])

end PVForecast
